import Mathlib

/-!
Shallow embedding of the self-update core of the insights client
(`insights/client/__init__.py`): the fetcher (`_fetch`, `fetch`), the
verifier (`verify`), the installer/rotator (`install`, `rotate_eggs`),
the update orchestration (`update`, the `update` phase body) and the
phase protocol runner (`phase`, `die`).

Modelling conventions:
  - the filesystem is an explicit value (`FS`): a list of existing
    directories and an association list of file path to content;
  - external effects are oracles passed as functions: the HTTP session
    (`get`), the gpg subprocess (`gpgRun` returning stdout, stderr and
    exit code), and spurious copy failures (`fail src dst`);
  - Python exceptions are values of `PyExc`; a function that can raise
    returns a result constructor carrying the exception and the
    filesystem state at raise time;
  - Python truthiness of an optional string (`if egg_path:`) is
    `pyTruthy`; Python `is None` is `Option.isNone`.
-/

namespace InsightsClient

/-- Python truthiness for an optional string value: `None` and the empty
string are falsy, every other string is truthy. -/
def pyTruthy : Option String → Bool
  | none => false
  | some s => !(s == "")

/-- The filesystem state: the set of existing directories and the existing
files with their contents (an association list; `lookup` finds the most
recent binding). -/
structure FS where
  dirs : List String
  files : List (String × String)
deriving Repr, DecidableEq

/-- `os.path.isfile` -/
def FS.isfile (fs : FS) (p : String) : Bool := (fs.files.lookup p).isSome

/-- `os.path.isdir` -/
def FS.isdir (fs : FS) (d : String) : Bool := fs.dirs.contains d

/-- Read a file's content, `none` when the file does not exist. -/
def FS.read (fs : FS) (p : String) : Option String := fs.files.lookup p

/-- `open(p, 'w').write(c)`: (over)write file `p` with content `c`. -/
def FS.write (fs : FS) (p c : String) : FS := ⟨fs.dirs, (p, c) :: fs.files⟩

/-- `os.mkdir` -/
def FS.mkdir (fs : FS) (d : String) : FS := ⟨d :: fs.dirs, fs.files⟩

/-- The Python exceptions the embedded code can raise: `IOError` (with its
message), `TypeError` (from `shutil.copyfile(None, dst)`), and `KeyError`
(from `response.headers['etag']` on a response without that header). -/
inductive PyExc where
  | ioError (msg : String)
  | typeError
  | keyError
deriving Repr, DecidableEq

/-- `shutil.copyfile(src, dst)`.  A `None` source raises `TypeError`
(Python coerces `None` to a path and fails before any I/O); a missing
source file raises `IOError`; the oracle `fail` models environmental copy
failures (permissions, disk full), also raised as `IOError`.  On success
the destination is overwritten with the source's content. -/
def copyfile (fail : String → String → Bool) (src : Option String) (dst : String)
    (fs : FS) : Except PyExc FS :=
  match src with
  | none => .error .typeError
  | some s =>
    match fs.read s with
    | none => .error (.ioError "No such file or directory")
    | some c =>
      if fail s dst then .error (.ioError "copy failed")
      else .ok (fs.write dst c)

namespace constants

/-- Modelled from the spec: the `constants` module is not under `src/`;
§6 fixes the slot layout (`newest.<ext>`, `newest.<ext>.asc`,
`last-stable.<ext>`, `last-stable.<ext>.asc` below one root directory,
plus one cached-validator file per remote resource and a public-key
path).  The concrete strings are placeholders; all theorems depend only
on the paths being pairwise distinct. -/
def insights_core_lib_dir : String := "/var/lib/insights"

/-- Modelled from the spec: `newest` slot artifact path (see
`insights_core_lib_dir`). -/
def insights_core_newest : String := "/var/lib/insights/newest.egg"

/-- Modelled from the spec: `newest` slot signature path. -/
def insights_core_gpg_sig_newest : String := "/var/lib/insights/newest.egg.asc"

/-- Modelled from the spec: `last-stable` slot artifact path. -/
def insights_core_last_stable : String := "/var/lib/insights/last_stable.egg"

/-- Modelled from the spec: `last-stable` slot signature path. -/
def insights_core_last_stable_gpg_sig : String :=
  "/var/lib/insights/last_stable.egg.asc"

/-- Modelled from the spec: cached-validator (etag) file for the core
artifact. -/
def core_etag_file : String := "/var/lib/insights/.insights-core.etag"

/-- Modelled from the spec: cached-validator (etag) file for the core
signature. -/
def core_gpg_sig_etag_file : String :=
  "/var/lib/insights/.insights-core-gpg-sig.etag"

/-- Modelled from the spec: default public gpg key path
(`constants.pub_gpg_path`). -/
def pub_gpg_path : String := "/etc/insights-client/redhattools.pub.gpg"

/-- Modelled from the spec: default egg download url (`constants.egg_path`). -/
def egg_path : String := "https://cert-api.access.redhat.com/r/insights/v1/static/core/insights-core.egg"

/-- Modelled from the spec: default gpg signature download url
(`constants.gpg_sig_path`). -/
def gpg_sig_path : String := "https://cert-api.access.redhat.com/r/insights/v1/static/core/insights-core.egg.asc"

end constants

/-- The subset of the `config` mapping the embedded functions read:
`config["gpg"]`, `config['update']`, `config['core_url']`,
`config['gpg_sig_url']`. -/
structure Config where
  gpg : Bool
  update : Bool
  core_url : Option String
  gpg_sig_url : Option String
deriving Repr, DecidableEq

/-- The dict returned by `verify`: `{'gpg': ..., 'stderr': ...,
'stdout': ..., 'rc': ...}`, with the `'message'` key present only on the
two file-existence failure returns. -/
structure VerifyRet where
  gpg : Bool
  stderr : Option String
  stdout : Option String
  rc : Int
  message : Option String
deriving Repr, DecidableEq

/-- A record of one invocation of the external gpg subprocess:
`/usr/bin/gpg --verify --keyring <keyring> <sig> <egg>`. -/
structure Invocation where
  keyring : String
  sig : String
  egg : String
deriving Repr, DecidableEq

/-- `InsightsClient.verify(egg_path, gpg_key)`.  `cfgGpg` is
`config["gpg"]`; `gpgRun keyring sig egg` is the external gpg subprocess
oracle returning (stdout, stderr, return code).  Returns the result dict
together with the backend invocation performed, if any. -/
def verify (cfgGpg : Bool) (gpgRun : String → String → String → String × String × Int)
    (fs : FS) (egg_path : Option String) (gpg_key : Option String) :
    VerifyRet × Option Invocation :=
  if pyTruthy egg_path && !(fs.isfile (egg_path.getD "")) then
    let m := "Provided egg path " ++ egg_path.getD "" ++ " does not exist, cannot verify."
    (⟨false, some m, some m, 1, some m⟩, none)
  else if cfgGpg && pyTruthy gpg_key && !(fs.isfile (gpg_key.getD "")) then
    let m := "Running in GPG mode but cannot find file " ++ gpg_key.getD "" ++ " to verify against."
    (⟨false, some m, some m, 1, some m⟩, none)
  else if !cfgGpg then
    (⟨true, none, none, 0, none⟩, none)
  else if pyTruthy egg_path && pyTruthy gpg_key then
    let e := egg_path.getD ""
    let k := gpg_key.getD ""
    let r := gpgRun k (e ++ ".asc") e
    (⟨r.2.2 == 0, some r.2.1, some r.1, r.2.2, none⟩, some ⟨k, e ++ ".asc", e⟩)
  else
    let m := "Must specify a valid core and gpg key."
    (⟨false, some m, some m, 1, none⟩, none)

/-- The outcome of `InsightsClient.rotate_eggs()`: returned `True`
(`rotated`), returned `False` (`notEligible`), raised the tailored
`IOError` from the `except IOError` handler (`raisedIOErr`), or let a
non-`IOError` exception propagate past that handler (`propagated`).
Every constructor carries the filesystem at return/raise time. -/
inductive RotateRes where
  | rotated (fs : FS)
  | notEligible (fs : FS)
  | raisedIOErr (msg : String) (fs : FS)
  | propagated (e : PyExc) (fs : FS)
deriving Repr, DecidableEq

/-- The tailored message of the `IOError` raised by `rotate_eggs`. -/
def rotate_eggs_msg : String :=
  "There was a problem copying " ++ constants.insights_core_newest ++ " to " ++
    constants.insights_core_last_stable ++ "."

/-- `InsightsClient.rotate_eggs()`: checks the library directory, then the
`newest` artifact; copies `newest` artifact then `newest` signature to
the `last-stable` slot; an `IOError` from either copy is re-raised with a
tailored message. -/
def rotate_eggs (fail : String → String → Bool) (fs : FS) : RotateRes :=
  if fs.isdir constants.insights_core_lib_dir then
    if fs.isfile constants.insights_core_newest then
      match copyfile fail (some constants.insights_core_newest)
          constants.insights_core_last_stable fs with
      | .error (.ioError _) => .raisedIOErr rotate_eggs_msg fs
      | .error e => .propagated e fs
      | .ok fs1 =>
        match copyfile fail (some constants.insights_core_gpg_sig_newest)
            constants.insights_core_last_stable_gpg_sig fs1 with
        | .error (.ioError _) => .raisedIOErr rotate_eggs_msg fs1
        | .error e => .propagated e fs1
        | .ok fs2 => .rotated fs2
    else .notEligible fs
  else .notEligible fs

/-- An HTTP response as `_fetch` consumes it: status code, body, and the
`etag` response header if present. -/
structure HttpResponse where
  status_code : Int
  content : String
  etag : Option String
deriving Repr, DecidableEq

/-- The HTTP request `_fetch` issues: reads the cached etag from
`etag_file` (stripping whitespace), and sends a conditional request
(`If-None-Match`) exactly when a truthy etag was found and `force` is
false.  `get url ifNoneMatch` is the session oracle. -/
def fetchResponse (get : String → Option String → HttpResponse) (fs : FS)
    (url etag_file : String) (force : Bool) : HttpResponse :=
  let current_etag : Option String := (fs.read etag_file).map String.trim
  if pyTruthy current_etag && !force then get url (some (current_etag.getD ""))
  else get url none

/-- The outcome of `InsightsClient._fetch`: `ok ret fs writes` models a
normal return (`ret = some ()` for Python `True`, `ret = none` for
Python's implicit `None`), `raised` models an uncaught exception.
`writes` lists the file paths written, in program order. -/
inductive FetchRes where
  | ok (ret : Option Unit) (fs : FS) (writes : List String)
  | raised (e : PyExc) (fs : FS) (writes : List String)
deriving Repr, DecidableEq

/-- The filesystem component of a `FetchRes`. -/
def FetchRes.fs : FetchRes → FS
  | .ok _ fs _ => fs
  | .raised _ fs _ => fs

/-- The ordered list of paths a `_fetch` run wrote. -/
def FetchRes.writes : FetchRes → List String
  | .ok _ _ w => w
  | .raised _ _ w => w

/-- `InsightsClient._fetch(url, etag_file, target_path, force)`.  On
HTTP 200 with a non-empty body it writes the body to `target_path`, then
the response's `etag` header to `etag_file` (a response without that
header raises `KeyError` after the body write), and returns `True`.  On
HTTP 304 it returns `None`.  On any other status or an empty body it
also returns `None` (the two non-update branches differ only in log
output). -/
def _fetch (get : String → Option String → HttpResponse) (fs : FS)
    (url etag_file target_path : String) (force : Bool) : FetchRes :=
  let response := fetchResponse get fs url etag_file force
  if response.status_code == 200 && decide (0 < response.content.length) then
    let fs1 := fs.write target_path response.content
    match response.etag with
    | none => .raised .keyError fs1 [target_path]
    | some e => .ok (some ()) (fs1.write etag_file e) [target_path, etag_file]
  else if response.status_code == 304 then
    .ok none fs []
  else
    .ok none fs []

/-- The dict `fetch` returns on update: the temporary paths of the new
egg and its signature. -/
structure EggPaths where
  core : String
  gpg_sig : String
deriving Repr, DecidableEq

/-- The outcome of `InsightsClient.fetch()`: a normal return of the paths
dict (or `None` when the core was not updated), or an uncaught
exception from one of the `_fetch` calls. -/
inductive FetchEggsRes where
  | ok (paths : Option EggPaths) (fs : FS)
  | raised (e : PyExc) (fs : FS)
deriving Repr, DecidableEq

/-- `InsightsClient.fetch()`: resolves the urls (config overrides
falling back to the constants), fetches the egg into `tmpdir`, and only
when that returned `True` fetches the signature and returns the paths
dict; otherwise falls through returning `None`.  `tmpdir` is the
directory `tempfile.mkdtemp()` produced. -/
def fetch (cfg : Config) (get : String → Option String → HttpResponse) (fs : FS)
    (tmpdir : String) (force : Bool) : FetchEggsRes :=
  let egg_url := if pyTruthy cfg.core_url then cfg.core_url.getD "" else constants.egg_path
  let gpg_sig_url :=
    if pyTruthy cfg.gpg_sig_url then cfg.gpg_sig_url.getD "" else constants.gpg_sig_path
  let core_path := tmpdir ++ "/insights-core.egg"
  let sig_path := tmpdir ++ "/insights-core.egg.asc"
  match _fetch get fs egg_url constants.core_etag_file core_path force with
  | .raised e fs1 _ => .raised e fs1
  | .ok ret fs1 _ =>
    if ret.isSome then
      match _fetch get fs1 gpg_sig_url constants.core_gpg_sig_etag_file sig_path force with
      | .raised e fs2 _ => .raised e fs2
      | .ok _ fs2 _ => .ok (some ⟨core_path, sig_path⟩) fs2
    else .ok none fs1

/-- The dict `install` returns: `{'success': ..., 'message': ...}` with
the message key only on the early failure returns. -/
structure InstallRet where
  success : Bool
  message : Option String
deriving Repr, DecidableEq

/-- The outcome of `InsightsClient.install`: a normal return of the
result dict, or an uncaught exception (a copy failure is re-raised; a
`TypeError` from a `None` copy source is not caught at all). -/
inductive InstallRes where
  | ok (r : InstallRet) (fs : FS)
  | raised (e : PyExc) (fs : FS)
deriving Repr, DecidableEq

/-- `InsightsClient.install(new_egg, new_egg_gpg_sig)`: guards (falsy
egg; in gpg mode a `None` signature), idempotent creation of the library
directory, then copies the egg to the `newest` slot and the signature to
the `newest` signature slot.  The `except IOError` handler re-raises, so
all copy exceptions propagate. -/
def install (cfgGpg : Bool) (fail : String → String → Bool) (fs : FS)
    (new_egg : Option String) (new_egg_gpg_sig : Option String) : InstallRes :=
  if !pyTruthy new_egg then
    .ok ⟨false, some "Must provide a valid Core installation path."⟩ fs
  else if cfgGpg && new_egg_gpg_sig.isNone then
    .ok ⟨false, some "Must provide a valid Core GPG installation path."⟩ fs
  else
    let fs1 := if fs.isdir constants.insights_core_lib_dir then fs
      else fs.mkdir constants.insights_core_lib_dir
    match copyfile fail new_egg constants.insights_core_newest fs1 with
    | .error e => .raised e fs1
    | .ok fs2 =>
      match copyfile fail new_egg_gpg_sig constants.insights_core_gpg_sig_newest fs2 with
      | .error e => .raised e fs2
      | .ok fs3 => .ok ⟨true, none⟩ fs3

/-- Which collaborator calls a run of `update()` made: the value `fetch`
returned, the `gpg` field of the `verify` result if `verify` was called,
and the arguments `install` was called with if it was. -/
structure UpdateTrace where
  fetched : Option EggPaths
  verified : Option Bool
  installArgs : Option (Option String × Option String)
deriving Repr, DecidableEq

/-- The Python value `update()` returns: the literal `False`, or the
dict returned by `install`. -/
inductive UpdateVal where
  | pyFalse
  | installed (r : InstallRet)
deriving Repr, DecidableEq

/-- The outcome of `InsightsClient.update()`, with its call trace. -/
inductive UpdateRes where
  | ok (v : UpdateVal) (fs : FS) (t : UpdateTrace)
  | raised (e : PyExc) (fs : FS) (t : UpdateTrace)
deriving Repr, DecidableEq

/-- The call trace of an `UpdateRes`. -/
def UpdateRes.trace : UpdateRes → UpdateTrace
  | .ok _ _ t => t
  | .raised _ _ t => t

/-- `InsightsClient.update()`: fetch; if the paths dict is truthy and
`verify(egg_paths['core'])['gpg']` is true, return
`install(egg_paths['core'], egg_paths['gpg_sig'])`, else return
`False`.  `verify` is called with the default key `constants.pub_gpg_path`
and `fetch` with the default `force=False`. -/
def update (cfg : Config) (get : String → Option String → HttpResponse)
    (gpgRun : String → String → String → String × String × Int)
    (fail : String → String → Bool) (fs : FS) (tmpdir : String) : UpdateRes :=
  match fetch cfg get fs tmpdir false with
  | .raised e fs1 => .raised e fs1 ⟨none, none, none⟩
  | .ok none fs1 => .ok .pyFalse fs1 ⟨none, none, none⟩
  | .ok (some paths) fs1 =>
    let v := verify cfg.gpg gpgRun fs1 (some paths.core) (some constants.pub_gpg_path)
    if v.1.gpg then
      match install cfg.gpg fail fs1 (some paths.core) (some paths.gpg_sig) with
      | .ok r fs2 =>
        .ok (.installed r) fs2 ⟨some paths, some true, some (some paths.core, some paths.gpg_sig)⟩
      | .raised e fs2 =>
        .raised e fs2 ⟨some paths, some true, some (some paths.core, some paths.gpg_sig)⟩
    else .ok .pyFalse fs1 ⟨some paths, some false, none⟩

/-- The trace of one run of the `update` phase body: the `update()` call
trace (absent if `update()` itself was never reached), and whether the
rule-refresh step (`client.update_rules()` inside
`InsightsClient.update_rules`) was invoked. -/
structure UpdatePhaseTrace where
  updateTrace : Option UpdateTrace
  ruleRefreshAttempted : Bool
deriving Repr, DecidableEq

/-- The outcome of the `update` phase body (before the `phase` wrapper):
normal return or an uncaught exception. -/
inductive UpdatePhaseRes where
  | returned (fs : FS) (t : UpdatePhaseTrace)
  | raised (e : PyExc) (fs : FS) (t : UpdatePhaseTrace)
deriving Repr, DecidableEq

/-- The body of the `update` phase: `c.update()` (return value
discarded), then `c.update_rules()`, which invokes the external
`client.update_rules()` exactly when `config['update']` is truthy. -/
def update_phase_body (cfg : Config) (get : String → Option String → HttpResponse)
    (gpgRun : String → String → String → String × String × Int)
    (fail : String → String → Bool) (fs : FS) (tmpdir : String) : UpdatePhaseRes :=
  match update cfg get gpgRun fail fs tmpdir with
  | .raised e fs1 t => .raised e fs1 ⟨some t, false⟩
  | .ok _ fs1 t => .returned fs1 ⟨some t, cfg.update⟩

/-- The structured line `die` prints: `{"message": ..., "rc": ...,
"retry": ..., "response": ...}`. -/
structure PhaseOutcome where
  message : Option String
  rc : Option Int
  retry : Bool
  response : Option String
deriving Repr, DecidableEq

/-- The implicit success outcome `die()` emits when a phase body returns
normally: all-default arguments. -/
def implicitOutcome : PhaseOutcome := ⟨none, none, false, none⟩

/-- One step of a phase body, as the `phase` wrapper observes it: plain
work, a call to `die(...)` (which prints its outcome and raises
`SystemExit(0)`, ending the body at that point), or raising an
`Exception`. -/
inductive Stmt where
  | work
  | dieCall (o : PhaseOutcome)
  | raiseExc
deriving Repr, DecidableEq

/-- How a phase body terminates: it runs its statements in order until
the first `die` or the first raised exception, returning normally if
neither occurs. -/
inductive BodyOutcome where
  | returned
  | died (o : PhaseOutcome)
  | raised
deriving Repr, DecidableEq

/-- Execute a phase body: the first `die` call or raised exception ends
it; `die`'s `SystemExit` is not an `Exception`, so it is never caught. -/
def runBody : List Stmt → BodyOutcome
  | [] => .returned
  | .work :: rest => runBody rest
  | .dieCall o :: _ => .died o
  | .raiseExc :: _ => .raised

/-- What the supervising process observes from one phase process: the
structured outcome lines printed to stdout, in order, and the process
exit status. -/
structure ProcessResult where
  printed : List PhaseOutcome
  exitCode : Nat
deriving Repr, DecidableEq

/-- The `phase` decorator around a body: run the pre-steps
(configuration compile, logging, auto-configuration — `preRaises` models
an exception there, which nothing catches), then the body inside
`try/except Exception/else`: an `Exception` exits with status 1 and no
outcome line; a `die` inside the body has already printed its line and
its `SystemExit(0)` propagates uncaught (exit 0); a normal return
reaches the `else` branch, which calls `die()` printing the implicit
success outcome and exiting 0. -/
def phase_run (preRaises : Bool) (body : List Stmt) : ProcessResult :=
  if preRaises then ⟨[], 1⟩
  else
    match runBody body with
    | .raised => ⟨[], 1⟩
    | .died o => ⟨[o], 0⟩
    | .returned => ⟨[implicitOutcome], 0⟩

/-- A phase process ended on the uncaught-failure path: no structured
outcome line, exit status 1. -/
def uncaughtFailureExit (r : ProcessResult) : Prop :=
  r.printed = [] ∧ r.exitCode = 1

/-- A phase process emitted the implicit success outcome: the body
returned normally (no pre-step failure), the single printed line is the
all-default outcome, exit status 0. -/
def implicitSuccessOutcome (preRaises : Bool) (body : List Stmt) (r : ProcessResult) : Prop :=
  preRaises = false ∧ runBody body = .returned
    ∧ r.printed = [implicitOutcome] ∧ r.exitCode = 0

/-- A phase process emitted an explicit outcome via `die`: the single
printed line is the outcome `die` was called with, exit status 0. -/
def explicitOutcomeEmitted (preRaises : Bool) (body : List Stmt) (r : ProcessResult) : Prop :=
  preRaises = false ∧ (∃ o, runBody body = .died o ∧ r.printed = [o]) ∧ r.exitCode = 0

/-! Concrete fixtures used by counterexamples and witnesses. -/

/-- The empty filesystem. -/
def emptyFS : FS := ⟨[], []⟩

/-- A session oracle whose every response is HTTP 304. -/
def get304 : String → Option String → HttpResponse := fun _ _ => ⟨304, "", none⟩

/-- A session oracle whose every response is HTTP 500 with an empty body. -/
def get500 : String → Option String → HttpResponse := fun _ _ => ⟨500, "", none⟩

/-- A session oracle whose every response is HTTP 200 with body `BODY`
and etag header `tag1`. -/
def get200 : String → Option String → HttpResponse := fun _ _ => ⟨200, "BODY", some "tag1"⟩

/-- A gpg subprocess oracle that always exits 0. -/
def gpgRun0 : String → String → String → String × String × Int := fun _ _ _ => ("", "", 0)

/-- A copy-failure oracle under which no copy fails spuriously. -/
def noFail : String → String → Bool := fun _ _ => false

/-- A configuration with gpg verification and rule updates enabled and no
url overrides. -/
def cfgAll : Config := ⟨true, true, none, none⟩

/-- A filesystem holding the library directory, a `newest` artifact
without its signature, and a stale complete `last-stable` pair: eligible
for rotation, but the signature copy will fail. -/
def rotateCxFS : FS :=
  ⟨[constants.insights_core_lib_dir],
   [(constants.insights_core_newest, "NEWEGG"),
    (constants.insights_core_last_stable, "OLDEGG"),
    (constants.insights_core_last_stable_gpg_sig, "OLDSIG")]⟩

/-- A filesystem holding an egg file and the default public gpg key. -/
def verifyFS : FS := ⟨[], [("/tmp/a.egg", "EGGDATA"), (constants.pub_gpg_path, "KEYDATA")]⟩

/-- A filesystem holding the library directory and a downloaded egg at a
temporary path. -/
def installFS : FS := ⟨[constants.insights_core_lib_dir], [("/tmp/new.egg", "EGGDATA")]⟩

end InsightsClient

namespace InsightsClient

/-! Helper lemmas shared across the claim theorems. -/

/-- A truthy optional string is `some` of its `getD ""`. -/
theorem pyTruthy_eq_some (o : Option String) (h : pyTruthy o = true) :
    o = some (o.getD "") := by
  cases o with
  | none => simp [pyTruthy] at h
  | some s => rfl

/-- Reading after a write: the written path returns the new content,
every other path is unaffected. -/
theorem FS.read_write (fs : FS) (p c q : String) :
    (fs.write p c).read q = if q = p then some c else fs.read q := by
  simp only [FS.read, FS.write, List.lookup]
  by_cases h : q = p
  · simp [h]
  · simp [beq_eq_false_iff_ne.mpr h, h]

/-- A file exists exactly when reading it yields some content. -/
theorem FS.isfile_iff_read (fs : FS) (p : String) :
    fs.isfile p = true ↔ ∃ c, fs.read p = some c := by
  simp [FS.isfile, FS.read, Option.isSome_iff_exists]

/-- `copyfile` from an existing source: fails exactly on the oracle,
otherwise overwrites the destination with the source content. -/
theorem copyfile_of_read (fail : String → String → Bool) (s dst : String) (fs : FS)
    (c : String) (hr : fs.read s = some c) :
    copyfile fail (some s) dst fs =
      if fail s dst then .error (.ioError "copy failed") else .ok (fs.write dst c) := by
  simp [copyfile, hr]

/-- `copyfile` from a missing source raises `IOError`. -/
theorem copyfile_of_missing (fail : String → String → Bool) (s dst : String) (fs : FS)
    (hr : fs.read s = none) :
    copyfile fail (some s) dst fs = .error (.ioError "No such file or directory") := by
  simp [copyfile, hr]

/-- A copy from an existing source path can only fail with `IOError`,
never with `TypeError` or `KeyError`. -/
theorem copyfile_some_error (fail : String → String → Bool) (s dst : String) (fs : FS)
    (e : PyExc) (h : copyfile fail (some s) dst fs = .error e) : ∃ m, e = .ioError m := by
  cases hr : fs.read s with
  | none =>
    simp [copyfile, hr] at h
    exact ⟨_, h.symm⟩
  | some c =>
    by_cases hf : fail s dst
    · simp [copyfile, hr, hf] at h
      exact ⟨_, h.symm⟩
    · simp [copyfile, hr, hf] at h

/-- C1, counterexample: with verification disabled (`config["gpg"]`
false), `verify` on a path that does not exist on the filesystem returns
`verified=false` (the existence check precedes the trust-bypass branch),
refuting "returns verified=true for every artifact path, including a
path that does not exist". -/
theorem verify_disabled_missing_path_cx :
    (verify false gpgRun0 emptyFS (some "/tmp/missing.egg") (some constants.pub_gpg_path)).1.gpg
      = false := by decide

/-- C1, amended: with verification disabled, `verify` never invokes the
external backend, and returns `verified=true` exactly when the artifact
path is unset/empty or names an existing file; for a set path that does
not exist it returns `verified=false`. -/
theorem verify_disabled_amended (gpgRun : String → String → String → String × String × Int)
    (fs : FS) (egg_path gpg_key : Option String) :
    (verify false gpgRun fs egg_path gpg_key).2 = none
    ∧ (verify false gpgRun fs egg_path gpg_key).1.gpg
        = (!pyTruthy egg_path || fs.isfile (egg_path.getD "")) := by
  cases ht : pyTruthy egg_path <;> cases hf : fs.isfile (egg_path.getD "") <;>
    simp [verify, ht, hf]

/-- C9: whenever `verify` invokes the external backend, the detached
signature it checks is the file at `egg_path + ".asc"`, adjacent to the
artifact passed in; no independently supplied signature location exists. -/
theorem verify_sig_adjacent (cfgGpg : Bool)
    (gpgRun : String → String → String → String × String × Int) (fs : FS)
    (egg_path gpg_key : Option String) (inv : Invocation)
    (h : (verify cfgGpg gpgRun fs egg_path gpg_key).2 = some inv) :
    inv.sig = inv.egg ++ ".asc" ∧ egg_path = some inv.egg := by
  unfold verify at h
  split at h
  · simp at h
  · split at h
    · simp at h
    · split at h
      · simp at h
      · split at h
        · rename_i hcond
          simp only [Prod.snd, Option.some.injEq] at h
          subst h
          refine ⟨rfl, ?_⟩
          exact pyTruthy_eq_some egg_path (Bool.and_elim_left hcond)
        · simp at h

/-- C9, witness: a concrete verification run where the backend is
invoked, with the signature path adjacent to the egg path. -/
theorem verify_sig_adjacent_witness :
    (verify true gpgRun0 verifyFS (some "/tmp/a.egg") (some constants.pub_gpg_path)).2
        = some ⟨constants.pub_gpg_path, "/tmp/a.egg" ++ ".asc", "/tmp/a.egg"⟩
    ∧ ((⟨constants.pub_gpg_path, "/tmp/a.egg" ++ ".asc", "/tmp/a.egg"⟩ : Invocation).sig
          = (⟨constants.pub_gpg_path, "/tmp/a.egg" ++ ".asc", "/tmp/a.egg"⟩ : Invocation).egg ++ ".asc"
        ∧ (some "/tmp/a.egg" : Option String)
          = some (⟨constants.pub_gpg_path, "/tmp/a.egg" ++ ".asc", "/tmp/a.egg"⟩ : Invocation).egg) :=
  ⟨by decide, verify_sig_adjacent true gpgRun0 verifyFS (some "/tmp/a.egg")
    (some constants.pub_gpg_path) _ (by decide)⟩

/-- Full case analysis of `rotate_eggs` as a single equation. -/
theorem rotate_eggs_unfold (fail : String → String → Bool) (fs : FS) :
    rotate_eggs fail fs =
      if fs.isdir constants.insights_core_lib_dir = false then .notEligible fs
      else
        match fs.read constants.insights_core_newest with
        | none => .notEligible fs
        | some c =>
          if fail constants.insights_core_newest constants.insights_core_last_stable
          then .raisedIOErr rotate_eggs_msg fs
          else
            match fs.read constants.insights_core_gpg_sig_newest with
            | none => .raisedIOErr rotate_eggs_msg (fs.write constants.insights_core_last_stable c)
            | some d =>
              if fail constants.insights_core_gpg_sig_newest
                  constants.insights_core_last_stable_gpg_sig
              then .raisedIOErr rotate_eggs_msg (fs.write constants.insights_core_last_stable c)
              else .rotated ((fs.write constants.insights_core_last_stable c).write
                constants.insights_core_last_stable_gpg_sig d) := by
  unfold rotate_eggs
  cases hd : fs.isdir constants.insights_core_lib_dir with
  | false => simp [hd]
  | true =>
    simp only [hd, if_true, Bool.true_eq_false, if_false]
    cases hn : fs.read constants.insights_core_newest with
    | none =>
      have hnf : fs.isfile constants.insights_core_newest = false := by
        unfold FS.isfile
        unfold FS.read at hn
        simp [hn]
      simp [hnf]
    | some c =>
      have hnf : fs.isfile constants.insights_core_newest = true := by
        unfold FS.isfile
        unfold FS.read at hn
        simp [hn]
      simp only [hnf, if_true]
      rw [copyfile_of_read fail _ _ fs c hn]
      cases hf1 : fail constants.insights_core_newest constants.insights_core_last_stable with
      | true => simp
      | false =>
        simp only [Bool.false_eq_true, if_false]
        have hr1 : (fs.write constants.insights_core_last_stable c).read
            constants.insights_core_gpg_sig_newest
            = fs.read constants.insights_core_gpg_sig_newest := by
          rw [FS.read_write]
          rw [if_neg (by decide)]
        cases hs : fs.read constants.insights_core_gpg_sig_newest with
        | none =>
          rw [copyfile_of_missing _ _ _ _ (hr1.trans hs)]
        | some d =>
          rw [copyfile_of_read _ _ _ _ d (hr1.trans hs)]
          cases hf2 : fail constants.insights_core_gpg_sig_newest
              constants.insights_core_last_stable_gpg_sig with
          | true => simp
          | false => simp

/-- C3, counterexample: on a filesystem where the `newest` artifact
exists but its signature does not, `rotate_eggs` copies the artifact to
`last-stable`, then raises from the signature copy: the `last-stable`
artifact has changed while the `last-stable` signature has not, so the
slot is neither fully copied nor left entirely unchanged — the artifact
is promoted without its matching signature. -/
theorem rotate_eggs_atomic_pair_cx :
    rotate_eggs noFail rotateCxFS =
      .raisedIOErr rotate_eggs_msg (rotateCxFS.write constants.insights_core_last_stable "NEWEGG")
    ∧ (rotateCxFS.write constants.insights_core_last_stable "NEWEGG").read
        constants.insights_core_last_stable
        ≠ rotateCxFS.read constants.insights_core_last_stable
    ∧ (rotateCxFS.write constants.insights_core_last_stable "NEWEGG").read
        constants.insights_core_last_stable_gpg_sig
        = rotateCxFS.read constants.insights_core_last_stable_gpg_sig := by decide

/-- C3, amended: `rotate_eggs` either copies both the artifact and the
signature to `last-stable` (returning true), or leaves the filesystem
unchanged (returning false, or raising from the artifact copy), or —
when the artifact copy succeeds and the signature copy fails — raises
an `IOError` with the `last-stable` artifact already replaced by the
`newest` artifact and the `last-stable` signature unchanged; a
non-`IOError` exception never escapes. -/
theorem rotate_eggs_pair_amended (fail : String → String → Bool) (fs : FS) :
    match rotate_eggs fail fs with
    | .rotated fs2 =>
        fs2.read constants.insights_core_last_stable = fs.read constants.insights_core_newest
        ∧ fs2.read constants.insights_core_last_stable_gpg_sig
            = fs.read constants.insights_core_gpg_sig_newest
    | .notEligible fs1 => fs1 = fs
    | .raisedIOErr _ fs1 =>
        fs1 = fs
        ∨ (fs1.read constants.insights_core_last_stable
              = fs.read constants.insights_core_newest
           ∧ fs1.read constants.insights_core_last_stable_gpg_sig
              = fs.read constants.insights_core_last_stable_gpg_sig)
    | .propagated _ _ => False := by
  rw [rotate_eggs_unfold fail fs]
  cases hd : fs.isdir constants.insights_core_lib_dir with
  | false => simp
  | true =>
    simp only [hd, Bool.true_eq_false, if_false]
    cases hn : fs.read constants.insights_core_newest with
    | none => simp
    | some c =>
      cases hf1 : fail constants.insights_core_newest constants.insights_core_last_stable with
      | true => simp
      | false =>
        simp only [Bool.false_eq_true, if_false]
        cases hs : fs.read constants.insights_core_gpg_sig_newest with
        | none =>
          refine Or.inr ⟨?_, ?_⟩
          · rw [FS.read_write, if_pos rfl]
          · rw [FS.read_write, if_neg (by decide)]
        | some d =>
          cases hf2 : fail constants.insights_core_gpg_sig_newest
              constants.insights_core_last_stable_gpg_sig with
          | true =>
            refine Or.inr ⟨?_, ?_⟩
            · rw [FS.read_write, if_pos rfl]
            · rw [FS.read_write, if_neg (by decide)]
          | false =>
            refine ⟨?_, ?_⟩
            · rw [FS.read_write, if_neg (by decide), FS.read_write, if_pos rfl]
            · rw [FS.read_write, if_pos rfl]

/-- C7: `rotate_eggs` returns false with the filesystem untouched
whenever the library directory is missing or the `newest` artifact is
missing, regardless of the `last-stable` state; a non-`IOError`
exception is never raised; and when both preconditions hold and a copy
fails, it raises an `IOError` carrying the tailored message, distinct
from the false return. -/
theorem rotate_eggs_preconditions (fail : String → String → Bool) (fs : FS) :
    ((fs.isdir constants.insights_core_lib_dir = false
        ∨ fs.isfile constants.insights_core_newest = false) →
      rotate_eggs fail fs = .notEligible fs)
    ∧ (∀ e fs1, rotate_eggs fail fs ≠ .propagated e fs1)
    ∧ (fs.isdir constants.insights_core_lib_dir = true →
       fs.isfile constants.insights_core_newest = true →
       (fail constants.insights_core_newest constants.insights_core_last_stable = true
        ∨ fs.isfile constants.insights_core_gpg_sig_newest = false
        ∨ fail constants.insights_core_gpg_sig_newest
            constants.insights_core_last_stable_gpg_sig = true) →
       ∃ fs1, rotate_eggs fail fs = .raisedIOErr rotate_eggs_msg fs1) := by
  rw [rotate_eggs_unfold fail fs]
  refine ⟨?_, ?_, ?_⟩
  · rintro (hd | hn)
    · simp [hd]
    · cases hd : fs.isdir constants.insights_core_lib_dir with
      | false => simp
      | true =>
        simp only [hd, Bool.true_eq_false, if_false]
        have : fs.read constants.insights_core_newest = none := by
          unfold FS.isfile at hn
          unfold FS.read
          simpa [Option.isSome_iff_exists] using hn
        simp [this]
  · intro e fs1
    cases hd : fs.isdir constants.insights_core_lib_dir with
    | false => simp
    | true =>
      simp only [Bool.true_eq_false, if_false]
      cases hn : fs.read constants.insights_core_newest with
      | none => simp
      | some c =>
        cases hf1 : fail constants.insights_core_newest constants.insights_core_last_stable with
        | true => simp
        | false =>
          simp only [Bool.false_eq_true, if_false]
          cases hs : fs.read constants.insights_core_gpg_sig_newest with
          | none => simp
          | some d =>
            cases hf2 : fail constants.insights_core_gpg_sig_newest
                constants.insights_core_last_stable_gpg_sig <;> simp
  · intro hd hn hfail
    obtain ⟨c, hc⟩ := (FS.isfile_iff_read fs _).mp hn
    simp only [hd, Bool.true_eq_false, if_false, hc]
    cases hf1 : fail constants.insights_core_newest constants.insights_core_last_stable with
    | true => exact ⟨fs, rfl⟩
    | false =>
      simp only [Bool.false_eq_true, if_false]
      rcases hfail with h1 | h2 | h3
      · rw [h1] at hf1; cases hf1
      · have : fs.read constants.insights_core_gpg_sig_newest = none := by
          unfold FS.isfile at h2
          unfold FS.read
          simpa [Option.isSome_iff_exists] using h2
        simp [this]
      · cases hs : fs.read constants.insights_core_gpg_sig_newest with
        | none => simp
        | some d => simp [h3]

/-- C7, witness: on the empty filesystem the directory precondition
fails and rotation returns false; on a filesystem with the directory and
a `newest` artifact but no `newest` signature, the signature copy fails
and rotation raises the tailored `IOError`. -/
theorem rotate_eggs_preconditions_witness :
    ((⟨[], []⟩ : FS).isdir constants.insights_core_lib_dir = false
      ∧ rotate_eggs noFail ⟨[], []⟩ = .notEligible ⟨[], []⟩)
    ∧ (rotateCxFS.isdir constants.insights_core_lib_dir = true
      ∧ rotateCxFS.isfile constants.insights_core_newest = true
      ∧ rotateCxFS.isfile constants.insights_core_gpg_sig_newest = false
      ∧ ∃ fs1, rotate_eggs noFail rotateCxFS = .raisedIOErr rotate_eggs_msg fs1) :=
  ⟨⟨by decide, (rotate_eggs_preconditions noFail ⟨[], []⟩).1 (Or.inl (by decide))⟩,
   ⟨by decide, by decide, by decide,
    (rotate_eggs_preconditions noFail rotateCxFS).2.2 (by decide) (by decide)
      (Or.inr (Or.inl (by decide)))⟩⟩

/-- C5, counterexample: `_fetch` evaluates to the very same value —
Python `None`, with no files touched — on an HTTP 304 response and on an
HTTP 500 response, so the caller cannot tell the "not modified" case
apart from the "unexpected status" case by the return value; there is no
distinct `NotModified` / `Unexpected(status)` pair of results. -/
theorem fetch_not_modified_vs_unexpected_cx :
    _fetch get304 emptyFS constants.egg_path constants.core_etag_file "/tmp/core.egg" false
      = _fetch get500 emptyFS constants.egg_path constants.core_etag_file "/tmp/core.egg" false
    ∧ _fetch get304 emptyFS constants.egg_path constants.core_etag_file "/tmp/core.egg" false
      = .ok none emptyFS [] := by decide

/-- C5, amended: on any response that is not HTTP 200 with a non-empty
body — HTTP 304 and every other status alike — `_fetch` returns `None`
with the filesystem unchanged, no file written, and nothing raised; the
304 and unexpected-status cases are indistinguishable by return value.
On HTTP 200 with a non-empty body it writes the body to `target_path`
and the response etag to `etag_file` and returns `True` (raising
`KeyError` after the body write if the response lacks an etag header);
this is the only path that mutates either file. -/
theorem fetch_branches_amended (get : String → Option String → HttpResponse) (fs : FS)
    (url etag_file target_path : String) (force : Bool) :
    (¬((fetchResponse get fs url etag_file force).status_code = 200
        ∧ 0 < (fetchResponse get fs url etag_file force).content.length) →
      _fetch get fs url etag_file target_path force = .ok none fs [])
    ∧ ((fetchResponse get fs url etag_file force).status_code = 200 →
       0 < (fetchResponse get fs url etag_file force).content.length →
       (match (fetchResponse get fs url etag_file force).etag with
        | some e =>
            _fetch get fs url etag_file target_path force =
              .ok (some ()) ((fs.write target_path
                  (fetchResponse get fs url etag_file force).content).write etag_file e)
                [target_path, etag_file]
        | none =>
            _fetch get fs url etag_file target_path force =
              .raised .keyError (fs.write target_path
                  (fetchResponse get fs url etag_file force).content) [target_path])) := by
  constructor
  · intro h
    simp only [_fetch]
    rw [if_neg ?hneg]
    case hneg =>
      simp only [Bool.and_eq_true, beq_iff_eq, decide_eq_true_eq]
      rintro ⟨h1, h2⟩
      exact h ⟨h1, h2⟩
    split
    · rfl
    · rfl
  · intro h1 h2
    cases he : (fetchResponse get fs url etag_file force).etag with
    | some e =>
      simp only [_fetch]
      rw [if_pos (by simp [h1, h2]), he]
    | none =>
      simp only [_fetch]
      rw [if_pos (by simp [h1, h2]), he]

/-- C5, witness: a concrete 304 run satisfies the non-update hypothesis
and returns `None` with nothing touched. -/
theorem fetch_branches_amended_witness :
    ¬((fetchResponse get304 emptyFS constants.egg_path constants.core_etag_file false).status_code
          = 200
        ∧ 0 < (fetchResponse get304 emptyFS constants.egg_path
            constants.core_etag_file false).content.length)
    ∧ _fetch get304 emptyFS constants.egg_path constants.core_etag_file "/tmp/core.egg" false
        = .ok none emptyFS [] :=
  ⟨by decide,
   (fetch_branches_amended get304 emptyFS constants.egg_path constants.core_etag_file
      "/tmp/core.egg" false).1 (by decide)⟩

/-- C8: within one `_fetch` run, the cached-validator file is only ever
written immediately after the artifact body has been written to the
target path (the possible write sequences are none, body only, and body
then validator); on a full success (HTTP 200, non-empty body, etag
header present), the writes are exactly the body followed by the
validator. -/
theorem fetch_writes_body_before_validator (get : String → Option String → HttpResponse)
    (fs : FS) (url etag_file target_path : String) (force : Bool) :
    ((_fetch get fs url etag_file target_path force).writes = []
     ∨ (_fetch get fs url etag_file target_path force).writes = [target_path]
     ∨ (_fetch get fs url etag_file target_path force).writes = [target_path, etag_file])
    ∧ ((fetchResponse get fs url etag_file force).status_code = 200 →
       0 < (fetchResponse get fs url etag_file force).content.length →
       (fetchResponse get fs url etag_file force).etag.isSome = true →
       (_fetch get fs url etag_file target_path force).writes = [target_path, etag_file]) := by
  constructor
  · simp only [_fetch]
    split
    · split
      · right; left; rfl
      · right; right; rfl
    · split
      · left; rfl
      · left; rfl
  · intro h1 h2 h3
    cases he : (fetchResponse get fs url etag_file force).etag with
    | some e =>
      simp only [_fetch]
      rw [if_pos (by simp [h1, h2]), he]
      rfl
    | none => rw [he] at h3; cases h3

/-- C8, witness: a concrete successful fetch whose write sequence is the
artifact body strictly before the validator. -/
theorem fetch_writes_body_before_validator_witness :
    (fetchResponse get200 emptyFS constants.egg_path constants.core_etag_file false).status_code = 200
    ∧ 0 < (fetchResponse get200 emptyFS constants.egg_path constants.core_etag_file false).content.length
    ∧ (fetchResponse get200 emptyFS constants.egg_path constants.core_etag_file false).etag.isSome = true
    ∧ (_fetch get200 emptyFS constants.egg_path constants.core_etag_file "/tmp/core.egg" false).writes
        = ["/tmp/core.egg", constants.core_etag_file] :=
  ⟨by decide, by decide, by decide,
   (fetch_writes_body_before_validator get200 emptyFS constants.egg_path
      constants.core_etag_file "/tmp/core.egg" false).2 (by decide) (by decide) (by decide)⟩

/-- C10: with verification disabled, `install(new_egg, None)` for a
non-empty egg path is not stopped by the `None`-signature guard (that
guard applies only in gpg mode): it never returns a structured result at
all, and when the artifact copy itself succeeds it reaches the signature
copy, which — with a `None` source — raises `TypeError`, an exception
the `except IOError` copy guard does not handle. -/
theorem install_none_sig_disabled (fail : String → String → Bool) (fs : FS) (egg : String)
    (hegg : egg ≠ "") :
    (∀ r fs1, install false fail fs (some egg) none ≠ .ok r fs1)
    ∧ (fs.isfile egg = true → fail egg constants.insights_core_newest = false →
       ∃ fs2, install false fail fs (some egg) none = .raised .typeError fs2) := by
  have ht : pyTruthy (some egg) = true := by simp [pyTruthy, hegg]
  constructor
  · intro r fs1
    simp only [install, ht, Bool.not_true, Bool.false_eq_true, if_false, Bool.false_and]
    cases hcopy : copyfile fail (some egg) constants.insights_core_newest
        (if fs.isdir constants.insights_core_lib_dir = true then fs
         else fs.mkdir constants.insights_core_lib_dir) with
    | error e => simp
    | ok fs2 => simp [copyfile]
  · intro hfile hnofail
    obtain ⟨c, hc⟩ := (FS.isfile_iff_read fs _).mp hfile
    have hc1 : (if fs.isdir constants.insights_core_lib_dir = true then fs
        else fs.mkdir constants.insights_core_lib_dir).read egg = some c := by
      split
      · exact hc
      · exact hc
    refine ⟨(if fs.isdir constants.insights_core_lib_dir = true then fs
        else fs.mkdir constants.insights_core_lib_dir).write constants.insights_core_newest c, ?_⟩
    simp only [install, ht, Bool.not_true, Bool.false_eq_true, if_false, Bool.false_and]
    rw [copyfile_of_read fail _ _ _ c hc1]
    rw [if_neg (by simp [hnofail])]
    rfl

/-- C10, witness: a concrete disabled-verification install with an
existing egg and a `None` signature raises `TypeError` from the
signature copy. -/
theorem install_none_sig_disabled_witness :
    ("/tmp/new.egg" ≠ "")
    ∧ installFS.isfile "/tmp/new.egg" = true
    ∧ ∃ fs2, install false noFail installFS (some "/tmp/new.egg") none
        = .raised .typeError fs2 :=
  ⟨by decide, by decide,
   (install_none_sig_disabled noFail installFS "/tmp/new.egg" (by decide)).2 (by decide) rfl⟩

/-- C2: in `update()`, `install` is called exactly when `verify`
returned `verified=true` for the freshly fetched artifact/signature
pair; when `fetch` reports no update, or verification fails, `install`
is never called and `update()` returns `False`. -/
theorem update_install_gated (cfg : Config) (get : String → Option String → HttpResponse)
    (gpgRun : String → String → String → String × String × Int)
    (fail : String → String → Bool) (fs : FS) (tmpdir : String) :
    ((update cfg get gpgRun fail fs tmpdir).trace.installArgs.isSome = true
       ↔ (update cfg get gpgRun fail fs tmpdir).trace.verified = some true)
    ∧ (∀ fs1, fetch cfg get fs tmpdir false = .ok none fs1 →
        update cfg get gpgRun fail fs tmpdir = .ok .pyFalse fs1 ⟨none, none, none⟩)
    ∧ (∀ paths fs1, fetch cfg get fs tmpdir false = .ok (some paths) fs1 →
        (verify cfg.gpg gpgRun fs1 (some paths.core) (some constants.pub_gpg_path)).1.gpg = false →
        update cfg get gpgRun fail fs tmpdir = .ok .pyFalse fs1 ⟨some paths, some false, none⟩) := by
  cases hf : fetch cfg get fs tmpdir false with
  | raised e fs1 =>
    refine ⟨by simp [update, hf, UpdateRes.trace], ?_, ?_⟩
    · intro fs2 h
      simp at h
    · intro p fs2 h hv
      simp at h
  | ok paths fs1 =>
    cases paths with
    | none =>
      refine ⟨by simp [update, hf, UpdateRes.trace], ?_, ?_⟩
      · intro fs2 h
        injection h with h1 h2
        subst h2
        simp [update, hf]
      · intro p fs2 h hv
        simp at h
    | some p =>
      by_cases hv : (verify cfg.gpg gpgRun fs1 (some p.core) (some constants.pub_gpg_path)).1.gpg
        = true
      · cases hi : install cfg.gpg fail fs1 (some p.core) (some p.gpg_sig) with
        | ok r fs2 =>
          refine ⟨by simp [update, hf, hv, hi, UpdateRes.trace], ?_, ?_⟩
          · intro fs3 h
            simp at h
          · intro p2 fs3 h hv2
            injection h with h1 h2
            injection h1 with h1
            subst h1
            subst h2
            rw [hv] at hv2
            simp at hv2
        | raised e fs2 =>
          refine ⟨by simp [update, hf, hv, hi, UpdateRes.trace], ?_, ?_⟩
          · intro fs3 h
            simp at h
          · intro p2 fs3 h hv2
            injection h with h1 h2
            injection h1 with h1
            subst h1
            subst h2
            rw [hv] at hv2
            simp at hv2
      · refine ⟨by simp [update, hf, hv, UpdateRes.trace], ?_, ?_⟩
        · intro fs3 h
          simp at h
        · intro p2 fs3 h hv2
          injection h with h1 h2
          injection h1 with h1
          subst h1
          subst h2
          simp [update, hf, hv]

/-- C2, witness: a concrete run in which `fetch` reports no update (HTTP
304) and `update()` returns `False` with `verify` and `install` never
called. -/
theorem update_install_gated_witness :
    fetch cfgAll get304 emptyFS "/tmp/t" false = .ok none emptyFS
    ∧ update cfgAll get304 gpgRun0 noFail emptyFS "/tmp/t"
        = .ok .pyFalse emptyFS ⟨none, none, none⟩ :=
  ⟨by decide,
   (update_install_gated cfgAll get304 gpgRun0 noFail emptyFS "/tmp/t").2.1 emptyFS (by decide)⟩

/-- C6, counterexample: in the `update` phase, with rule updates enabled
in configuration, a run whose fetch reports no update (so installation
is never performed) still attempts the rule-refresh step — the phase
body calls `c.update_rules()` unconditionally after `c.update()`,
ignoring its return value. -/
theorem update_phase_rule_refresh_cx :
    ∃ t, update_phase_body cfgAll get304 gpgRun0 noFail emptyFS "/tmp/t"
        = .returned emptyFS t
      ∧ t.updateTrace = some ⟨none, none, none⟩
      ∧ t.ruleRefreshAttempted = true :=
  ⟨⟨some ⟨none, none, none⟩, true⟩, by decide, rfl, rfl⟩

/-- C6, amended: in the `update` phase, the rule-refresh step is
attempted exactly when `update()` completes without raising and
configuration permits updates — whether installation succeeded, failed,
or was never performed does not influence it. -/
theorem update_phase_rule_refresh_amended (cfg : Config)
    (get : String → Option String → HttpResponse)
    (gpgRun : String → String → String → String × String × Int)
    (fail : String → String → Bool) (fs : FS) (tmpdir : String) :
    match update_phase_body cfg get gpgRun fail fs tmpdir with
    | .returned _ t => t.ruleRefreshAttempted = cfg.update
    | .raised _ _ t => t.ruleRefreshAttempted = false := by
  cases hu : update cfg get gpgRun fail fs tmpdir with
  | ok v fs1 t => simp [update_phase_body, hu]
  | raised e fs1 t => simp [update_phase_body, hu]

/-- C4: every phase execution yields exactly one of the three terminal
behaviors — uncaught-failure exit (status 1, no structured line),
explicit outcome via `die` (one structured line, status 0), or implicit
success (the all-default outcome line, status 0) — never zero of them
and never more than one, and never more than one structured line. -/
theorem phase_outcome_singularity (preRaises : Bool) (body : List Stmt) :
    (phase_run preRaises body).printed.length ≤ 1
    ∧ ((uncaughtFailureExit (phase_run preRaises body)
          ∧ ¬implicitSuccessOutcome preRaises body (phase_run preRaises body)
          ∧ ¬explicitOutcomeEmitted preRaises body (phase_run preRaises body))
       ∨ (¬uncaughtFailureExit (phase_run preRaises body)
          ∧ implicitSuccessOutcome preRaises body (phase_run preRaises body)
          ∧ ¬explicitOutcomeEmitted preRaises body (phase_run preRaises body))
       ∨ (¬uncaughtFailureExit (phase_run preRaises body)
          ∧ ¬implicitSuccessOutcome preRaises body (phase_run preRaises body)
          ∧ explicitOutcomeEmitted preRaises body (phase_run preRaises body))) := by
  cases preRaises with
  | true =>
    refine ⟨by simp [phase_run], Or.inl ⟨⟨rfl, rfl⟩, ?_, ?_⟩⟩
    · simp [implicitSuccessOutcome]
    · simp [explicitOutcomeEmitted]
  | false =>
    cases hb : runBody body with
    | returned =>
      refine ⟨by simp [phase_run, hb], Or.inr (Or.inl ⟨?_, ⟨rfl, hb, ?_, ?_⟩, ?_⟩)⟩
      · simp [uncaughtFailureExit, phase_run, hb]
      · simp [phase_run, hb]
      · simp [phase_run, hb]
      · simp [explicitOutcomeEmitted, hb]
    | died o =>
      refine ⟨by simp [phase_run, hb], Or.inr (Or.inr ⟨?_, ?_, rfl, ⟨o, hb, ?_⟩, ?_⟩)⟩
      · simp [uncaughtFailureExit, phase_run, hb]
      · simp [implicitSuccessOutcome, hb]
      · simp [phase_run, hb]
      · simp [phase_run, hb]
    | raised =>
      refine ⟨by simp [phase_run, hb], Or.inl ⟨⟨by simp [phase_run, hb], by simp [phase_run, hb]⟩, ?_, ?_⟩⟩
      · simp [implicitSuccessOutcome, hb]
      · simp [explicitOutcomeEmitted, hb]

end InsightsClient
